import Mathlib

/-!
Verification of the My-DDNS-Updater core logic: the Lambda handler in
src/my-ddns-hostname-resolver/handler.py together with the helper
functions in src/my-ddns-hostname-resolver/ddns_hostname_resolver/utils.py.

The external collaborators (the DNS resolver, the SSM parameter store)
are modelled by outcome types that enumerate exactly the cases the
Python code distinguishes in its try/except structure, and the handler
is embedded as a total function from the environment and those outcomes
to a structured output that also records which external calls were made.
-/

namespace DdnsUpdater

/-- Outcome of the external call `resolver.resolve(hostname, "A")` in
`resolve_ddns_hostname` (utils.py): either it returns a list of answer
records (each rendered to a string by `str(...)`), or it raises one of
the exceptions the code catches: `dns.resolver.NoAnswer`,
`dns.resolver.NXDOMAIN`, or any other `Exception` (carrying a message). -/
inductive DnsOutcome where
  | answers (records : List String)
  | noAnswer
  | nxdomain
  | otherError (msg : String)
deriving DecidableEq, Repr

/-- Embedding of `resolve_ddns_hostname` (utils.py, lines 25-56).
On a successful resolve it takes `str(answers[0])`, the first record;
`answers[0]` on an empty answer list raises IndexError, which the
final `except Exception` clause catches, so the empty list also yields
`None`.  Each caught exception (`NoAnswer`, `NXDOMAIN`, anything else)
falls through to `return None`.  The function never raises, hence its
embedding is a total function into `Option String`. -/
def resolve_ddns_hostname : DnsOutcome → Option String
  | .answers recs => recs.head?
  | .noAnswer => none
  | .nxdomain => none
  | .otherError _ => none

/-- Outcome of the external call `ssm_client.get_parameter(...)` in
`get_ssm_parameter` (utils.py): a value, the `ParameterNotFound`
exception, or any other `Exception` (carrying a message). -/
inductive SsmGetOutcome where
  | found (value : String)
  | notFound
  | otherError (msg : String)
deriving DecidableEq, Repr

/-- Embedding of `get_ssm_parameter` (utils.py, lines 59-93): returns
`response["Parameter"]["Value"]` on success, returns `None` when
`ParameterNotFound` is caught, and re-raises any other exception
(modelled as `Except.error` carrying the message used in `str(e)`). -/
def get_ssm_parameter : SsmGetOutcome → Except String (Option String)
  | .found v => .ok (some v)
  | .notFound => .ok none
  | .otherError e => .error e

/-- Outcome of the external call `ssm_client.put_parameter(...)` in
`put_ssm_parameter` (utils.py): success, or any `Exception`. -/
inductive SsmPutOutcome where
  | success
  | failure (msg : String)
deriving DecidableEq, Repr

/-- Embedding of `put_ssm_parameter` (utils.py, lines 96-132): returns
`True` on success and re-raises any exception raised by the put call. -/
def put_ssm_parameter : SsmPutOutcome → Except String Bool
  | .success => .ok true
  | .failure e => .error e

/-- Python truthiness of an `Optional[str]`: `None` and the empty
string are falsy, every other string is truthy.  This is the test
applied by `all([ddns_hostname, home_ip_ssm_param_name])` and by
`if not current_resolved_ip` in handler.py. -/
def pyTruthy : Option String → Bool
  | none => false
  | some s => s != ""

/-- The two environment variables read by the handler via
`os.environ.get`, each absent (`none`) or a string. -/
structure Env where
  DDNS_HOSTNAME : Option String
  HOME_IP_SSM_PARAM_NAME : Option String
deriving DecidableEq, Repr

/-- The handler's observable behaviour: the returned dictionary
(`statusCode` and `body`), plus a trace of the external calls it made —
how many DNS resolve calls, how many store get calls, and the list of
values passed to store put calls (in order). -/
structure HandlerOutput where
  statusCode : Nat
  body : String
  dnsCalls : Nat
  getCalls : Nat
  setCalls : List String
deriving DecidableEq, Repr

/-- Embedding of `lambda_handler` (handler.py, lines 19-88), with the
outcomes of the three external collaborators passed as parameters.
Control flow of the source, in order:
  1. read both env vars; `if not all([...])` returns
     `{500, "Missing configuration."}` before any external call;
  2. call `resolve_ddns_hostname`; a falsy result (None or `""`)
     returns `{200, "Could not resolve current public IP."}` with no
     store access;
  3. call `get_ssm_parameter`; a raised exception is caught by the
     outer `except Exception` giving `{500, "Unhandled error: " + str(e)}`;
  4. compare: equal value returns `{200, "SSM parameter already up to
     date."}` with no put call; otherwise `put_ssm_parameter` is called,
     and its exception is likewise caught by the outer handler, else
     `{200, "SSM parameter updated successfully."}` is returned. -/
def lambda_handler (env : Env) (dns : DnsOutcome)
    (getO : SsmGetOutcome) (putO : SsmPutOutcome) : HandlerOutput :=
  if !(pyTruthy env.DDNS_HOSTNAME && pyTruthy env.HOME_IP_SSM_PARAM_NAME) then
    ⟨500, "Missing configuration.", 0, 0, []⟩
  else
    match resolve_ddns_hostname dns with
    | none => ⟨200, "Could not resolve current public IP.", 1, 0, []⟩
    | some ip =>
      if ip = "" then
        ⟨200, "Could not resolve current public IP.", 1, 0, []⟩
      else
        match get_ssm_parameter getO with
        | .error e => ⟨500, "Unhandled error: " ++ e, 1, 1, []⟩
        | .ok current_ip_in_ssm =>
          if current_ip_in_ssm = some ip then
            ⟨200, "SSM parameter already up to date.", 1, 1, []⟩
          else
            match put_ssm_parameter putO with
            | .error e => ⟨500, "Unhandled error: " ++ e, 1, 1, [ip]⟩
            | .ok _ => ⟨200, "SSM parameter updated successfully.", 1, 1, [ip]⟩

/-- The store get outcome produced by a parameter store holding
`store` (absent key raises `ParameterNotFound`, i.e. `notFound`). -/
def getOutcomeOfStore : Option String → SsmGetOutcome
  | some v => .found v
  | none => .notFound

/-- One handler run against a store in state `store`, with the put
call succeeding: returns the handler output and the store state after
the run (a put call overwrites the stored value). -/
def runOnStore (env : Env) (dns : DnsOutcome) (store : Option String) :
    HandlerOutput × Option String :=
  let out := lambda_handler env dns (getOutcomeOfStore store) .success
  (out, match out.setCalls with
        | [] => store
        | v :: _ => some v)

/-- C4: when either required environment variable is missing or empty,
the handler returns status 500 with body "Missing configuration." and
makes no DNS, get, or put call. -/
theorem missing_config_short_circuits (env : Env) (dns : DnsOutcome)
    (getO : SsmGetOutcome) (putO : SsmPutOutcome)
    (h : pyTruthy env.DDNS_HOSTNAME = false ∨
         pyTruthy env.HOME_IP_SSM_PARAM_NAME = false) :
    lambda_handler env dns getO putO =
      ⟨500, "Missing configuration.", 0, 0, []⟩ := by
  rcases h with h | h <;> simp [lambda_handler, h]

/-- Witness for C4 at a concrete input: `HOME_IP_SSM_PARAM_NAME` unset. -/
theorem missing_config_short_circuits_witness :
    lambda_handler ⟨some "home.example.com", none⟩ (.answers ["203.0.113.5"])
      (.found "0.0.0.0") .success =
      ⟨500, "Missing configuration.", 0, 0, []⟩ :=
  missing_config_short_circuits _ _ _ _ (Or.inr rfl)

/-- C2: when resolution yields IP `ip` (a nonempty string) and the
store get returns exactly `ip`, the handler returns status 200 with the
already-up-to-date body and makes no put call. -/
theorem already_up_to_date_no_set (env : Env) (dns : DnsOutcome)
    (ip : String) (putO : SsmPutOutcome)
    (h1 : pyTruthy env.DDNS_HOSTNAME = true)
    (h2 : pyTruthy env.HOME_IP_SSM_PARAM_NAME = true)
    (hres : resolve_ddns_hostname dns = some ip) (hip : ip ≠ "") :
    lambda_handler env dns (.found ip) putO =
      ⟨200, "SSM parameter already up to date.", 1, 1, []⟩ := by
  simp [lambda_handler, h1, h2, hres, hip, get_ssm_parameter]

/-- Witness for C2 at a concrete input (spec example scenario 2). -/
theorem already_up_to_date_no_set_witness :
    lambda_handler ⟨some "home.example.com", some "/home/ip"⟩
      (.answers ["203.0.113.5"]) (.found "203.0.113.5") .success =
      ⟨200, "SSM parameter already up to date.", 1, 1, []⟩ :=
  already_up_to_date_no_set _ _ _ _ rfl rfl rfl (by decide)

/-- C1: when resolution yields IP `ip` (a nonempty string), the store
get succeeds with a value `y` different from `some ip` (including the
not-found case `y = none`), and the put succeeds, the handler makes
exactly one put call with value `ip` and returns status 200 with the
updated body. -/
theorem updated_when_different (env : Env) (dns : DnsOutcome)
    (ip : String) (getO : SsmGetOutcome) (y : Option String)
    (h1 : pyTruthy env.DDNS_HOSTNAME = true)
    (h2 : pyTruthy env.HOME_IP_SSM_PARAM_NAME = true)
    (hres : resolve_ddns_hostname dns = some ip) (hip : ip ≠ "")
    (hget : get_ssm_parameter getO = .ok y) (hy : y ≠ some ip) :
    lambda_handler env dns getO .success =
      ⟨200, "SSM parameter updated successfully.", 1, 1, [ip]⟩ := by
  simp [lambda_handler, h1, h2, hres, hip, hget, hy, put_ssm_parameter]

/-- Witness for C1 at a concrete input (spec example scenario 1). -/
theorem updated_when_different_witness :
    lambda_handler ⟨some "home.example.com", some "/home/ip"⟩
      (.answers ["203.0.113.5"]) (.found "0.0.0.0") .success =
      ⟨200, "SSM parameter updated successfully.", 1, 1, ["203.0.113.5"]⟩ :=
  updated_when_different _ _ _ _ (some "0.0.0.0") rfl rfl rfl (by decide)
    rfl (by decide)

/-- C3: when the resolution call fails (no answer, nonexistent name,
or any other error), the handler makes no store get and no store put
call and returns status 200 with the could-not-resolve body. -/
theorem resolution_failure_skips (env : Env) (dns : DnsOutcome)
    (getO : SsmGetOutcome) (putO : SsmPutOutcome)
    (h1 : pyTruthy env.DDNS_HOSTNAME = true)
    (h2 : pyTruthy env.HOME_IP_SSM_PARAM_NAME = true)
    (hfail : dns = .noAnswer ∨ dns = .nxdomain ∨ ∃ e, dns = .otherError e) :
    lambda_handler env dns getO putO =
      ⟨200, "Could not resolve current public IP.", 1, 0, []⟩ := by
  rcases hfail with h | h | ⟨e, h⟩ <;>
    simp [lambda_handler, h1, h2, h, resolve_ddns_hostname]

/-- Witness for C3 at a concrete input (spec example scenario 4:
resolution raises the name-does-not-exist exception). -/
theorem resolution_failure_skips_witness :
    lambda_handler ⟨some "home.example.com", some "/home/ip"⟩ .nxdomain
      (.found "0.0.0.0") .success =
      ⟨200, "Could not resolve current public IP.", 1, 0, []⟩ :=
  resolution_failure_skips _ _ _ _ rfl rfl (Or.inr (Or.inl rfl))

/-- C7: when resolution yields IP `ip` (a nonempty string) and the
store get raises an error other than not-found, the handler returns
status 500 (with the error message wrapped by the outer exception
handler) and makes no put call. -/
theorem get_failure_no_set (env : Env) (dns : DnsOutcome)
    (ip e : String) (putO : SsmPutOutcome)
    (h1 : pyTruthy env.DDNS_HOSTNAME = true)
    (h2 : pyTruthy env.HOME_IP_SSM_PARAM_NAME = true)
    (hres : resolve_ddns_hostname dns = some ip) (hip : ip ≠ "") :
    lambda_handler env dns (.otherError e) putO =
      ⟨500, "Unhandled error: " ++ e, 1, 1, []⟩ := by
  simp [lambda_handler, h1, h2, hres, hip, get_ssm_parameter]

/-- Witness for C7 at a concrete input. -/
theorem get_failure_no_set_witness :
    lambda_handler ⟨some "home.example.com", some "/home/ip"⟩
      (.answers ["203.0.113.5"]) (.otherError "AccessDenied") .success =
      ⟨500, "Unhandled error: AccessDenied", 1, 1, []⟩ :=
  get_failure_no_set _ _ _ _ _ rfl rfl rfl (by decide)

/-- C6: whenever the put call fails (its outcome is an exception) and
the handler actually performed a put call, the handler returns status
500 and its body is not the updated-successfully message. -/
theorem put_failure_not_updated (env : Env) (dns : DnsOutcome)
    (getO : SsmGetOutcome) (e : String)
    (hset : (lambda_handler env dns getO (.failure e)).setCalls ≠ []) :
    (lambda_handler env dns getO (.failure e)).statusCode = 500 ∧
    (lambda_handler env dns getO (.failure e)).body ≠
      "SSM parameter updated successfully." := by
  unfold lambda_handler at *
  split at hset
  · simp_all
  · split at hset
    · simp_all
    · split at hset
      · simp_all
      · split at hset
        · simp_all
        · split at hset
          · simp_all
          · simp_all [put_ssm_parameter]
            intro hcontr
            have hd := congrArg String.data hcontr
            rw [String.data_append] at hd
            have hu : "Unhandled error: ".data =
                ['U','n','h','a','n','d','l','e','d',' ',
                 'e','r','r','o','r',':',' '] := rfl
            rw [hu] at hd
            simp [List.cons_append] at hd

/-- Witness for C6 at a concrete input where the put is attempted. -/
theorem put_failure_not_updated_witness :
    (lambda_handler ⟨some "home.example.com", some "/home/ip"⟩
        (.answers ["203.0.113.5"]) (.found "0.0.0.0")
        (.failure "Throttled")).statusCode = 500 ∧
    (lambda_handler ⟨some "home.example.com", some "/home/ip"⟩
        (.answers ["203.0.113.5"]) (.found "0.0.0.0")
        (.failure "Throttled")).body ≠
      "SSM parameter updated successfully." :=
  put_failure_not_updated _ _ _ _ (by decide)

/-- C8: the resolution function is total over every outcome of the
underlying resolver call: on a successful resolve with at least one
record it returns exactly the first record, and in every other case
(the two specific exceptions, any generic error, or an empty record
list) it returns `none` — it never propagates an exception. -/
theorem resolve_never_raises (d : DnsOutcome) :
    (∃ a as, d = .answers (a :: as) ∧ resolve_ddns_hostname d = some a) ∨
    resolve_ddns_hostname d = none := by
  cases d with
  | answers recs =>
    cases recs with
    | nil => exact Or.inr rfl
    | cons a as => exact Or.inl ⟨a, as, rfl, rfl⟩
  | noAnswer => exact Or.inr rfl
  | nxdomain => exact Or.inr rfl
  | otherError e => exact Or.inr rfl

/-- C9: for every environment and every outcome of the external DNS
and store collaborators, the handler returns a structured result with
status 200 carrying one of the three handled-outcome messages, or
status 500 carrying the configuration-error message or a wrapped
unhandled-error message — it never propagates an exception. -/
theorem result_contract (env : Env) (dns : DnsOutcome)
    (getO : SsmGetOutcome) (putO : SsmPutOutcome) :
    ((lambda_handler env dns getO putO).statusCode = 200 ∧
      ((lambda_handler env dns getO putO).body =
          "Could not resolve current public IP." ∨
       (lambda_handler env dns getO putO).body =
          "SSM parameter already up to date." ∨
       (lambda_handler env dns getO putO).body =
          "SSM parameter updated successfully.")) ∨
    ((lambda_handler env dns getO putO).statusCode = 500 ∧
      ((lambda_handler env dns getO putO).body = "Missing configuration." ∨
       ∃ e, (lambda_handler env dns getO putO).body =
          "Unhandled error: " ++ e)) := by
  unfold lambda_handler
  split
  · exact Or.inr ⟨rfl, Or.inl rfl⟩
  · split
    · exact Or.inl ⟨rfl, Or.inl rfl⟩
    · split
      · exact Or.inl ⟨rfl, Or.inl rfl⟩
      · split
        · exact Or.inr ⟨rfl, Or.inr ⟨_, rfl⟩⟩
        · split
          · exact Or.inl ⟨rfl, Or.inr (Or.inl rfl)⟩
          · split
            · exact Or.inr ⟨rfl, Or.inr ⟨_, rfl⟩⟩
            · exact Or.inl ⟨rfl, Or.inr (Or.inr rfl)⟩

/-- C10: when the resolver succeeds but its first record renders to
the empty string, the handler's truthiness test treats it like a
failed resolution: status 200 with the could-not-resolve body, no
store get and no store put call. -/
theorem empty_string_resolution_skips (env : Env) (rest : List String)
    (getO : SsmGetOutcome) (putO : SsmPutOutcome)
    (h1 : pyTruthy env.DDNS_HOSTNAME = true)
    (h2 : pyTruthy env.HOME_IP_SSM_PARAM_NAME = true) :
    lambda_handler env (.answers ("" :: rest)) getO putO =
      ⟨200, "Could not resolve current public IP.", 1, 0, []⟩ := by
  simp [lambda_handler, h1, h2, resolve_ddns_hostname]

/-- Witness for C10 at a concrete input. -/
theorem empty_string_resolution_skips_witness :
    lambda_handler ⟨some "home.example.com", some "/home/ip"⟩
      (.answers [""]) (.found "0.0.0.0") .success =
      ⟨200, "Could not resolve current public IP.", 1, 0, []⟩ :=
  empty_string_resolution_skips _ _ _ _ rfl rfl

/-- A store in state `s` makes the get helper return `.ok s`: a held
value is found, an absent key raises `ParameterNotFound`, which the
helper converts to `None`. -/
theorem get_of_store (s : Option String) :
    get_ssm_parameter (getOutcomeOfStore s) = .ok s := by
  cases s <;> rfl

/-- C5: running the handler twice against a store, with the same
resolved IP and the first run's resulting store state carried into the
second run, performs at most one put call on the first run and none on
the second, which reports already up to date. -/
theorem update_idempotent (env : Env) (dns : DnsOutcome) (ip : String)
    (s0 : Option String)
    (h1 : pyTruthy env.DDNS_HOSTNAME = true)
    (h2 : pyTruthy env.HOME_IP_SSM_PARAM_NAME = true)
    (hres : resolve_ddns_hostname dns = some ip) (hip : ip ≠ "") :
    (runOnStore env dns s0).1.setCalls.length ≤ 1 ∧
    (runOnStore env dns (runOnStore env dns s0).2).1.setCalls = [] ∧
    (runOnStore env dns (runOnStore env dns s0).2).1.body =
      "SSM parameter already up to date." := by
  rcases s0 with _ | v
  · simp [runOnStore, getOutcomeOfStore, lambda_handler, h1, h2, hres, hip,
      get_ssm_parameter, put_ssm_parameter]
  · by_cases hv : v = ip
    · subst hv
      simp [runOnStore, getOutcomeOfStore, lambda_handler, h1, h2, hres, hip,
        get_ssm_parameter, put_ssm_parameter]
    · simp [runOnStore, getOutcomeOfStore, lambda_handler, h1, h2, hres, hip,
        get_ssm_parameter, put_ssm_parameter, hv]

/-- Witness for C5 at a concrete input: initial store holds the
placeholder value, both runs resolve to the same IP. -/
theorem update_idempotent_witness :
    (runOnStore ⟨some "home.example.com", some "/home/ip"⟩
        (.answers ["203.0.113.5"]) (some "0.0.0.0")).1.setCalls.length ≤ 1 ∧
    (runOnStore ⟨some "home.example.com", some "/home/ip"⟩
        (.answers ["203.0.113.5"])
        (runOnStore ⟨some "home.example.com", some "/home/ip"⟩
          (.answers ["203.0.113.5"]) (some "0.0.0.0")).2).1.setCalls = [] ∧
    (runOnStore ⟨some "home.example.com", some "/home/ip"⟩
        (.answers ["203.0.113.5"])
        (runOnStore ⟨some "home.example.com", some "/home/ip"⟩
          (.answers ["203.0.113.5"]) (some "0.0.0.0")).2).1.body =
      "SSM parameter already up to date." :=
  update_idempotent _ _ _ _ rfl rfl rfl (by decide)

end DdnsUpdater
